import Mathlib

/-!
Shallow embedding of the ReadRight client's analysis-session core
(`frontend/src/App.js`, given here as `src/unnamed/part_000`, plus the
older variant `src/frontend/src/App.js`).

The embedding translates the pure derivations (`clamp`, `allSorted`,
`filtered`, `topShown`), the rewrite cache and its request coordinator
(`rewriteSentence`), and the session manager (`analyzePdf` in the current
file, `analyze` in the older variant).  JavaScript numbers that the code
only compares and copies are modelled as `Int`; possibly-absent object
fields as `Option`; the truthiness idiom `x || d` is modelled explicitly
(`jsOrDefault`, `jsOrStr`).  Asynchronous completion of a network call is
modelled as a separate state-transition function applied when the call
resolves; the synchronous prefix of an async function (everything before
the first `await`) is the "step" function.
-/

namespace ReadRight

/-- A sentence and its risk score, as returned by the backend.  The code
reads `x.score ?? 0`, so the score may be absent; absent is `none`. -/
structure ScoredSentence where
  sentence : String
  score : Option Int
deriving DecidableEq, Repr

/-- The `/analyze` response shape.  Numeric metric fields may be absent or
non-numeric (the UI degrades them to a dash); they are modelled as
`Option Int`.  `top_risk_sentences` may be absent or empty; both render as
the empty list, matching the code's `analysis?.top_risk_sentences?.length`
truthiness test. -/
structure AnalysisResult where
  grade_level : Option Int
  reading_time_minutes : Option Int
  total_sentences : Option Int
  average_risk_score : Option Int
  all_sentences : List ScoredSentence
  top_risk_sentences : List ScoredSentence
deriving DecidableEq, Repr

/-- Embedding of `clamp(n, a, b) = Math.max(a, Math.min(b, n))`. -/
def clamp (n a b : Int) : Int := max a (min b n)

/-- Embedding of `x.score ?? 0`: the score with absent read as 0. -/
def scoreOr0 (x : ScoredSentence) : Int := x.score.getD 0

/-- Embedding of the JavaScript truthiness default `Number(v) || d` on an
integer-valued state variable: 0 is falsy and falls back to `d`, every
other integer passes through. -/
def jsOrDefault (v d : Int) : Int := if v = 0 then d else v

/-- Embedding of `allSorted`: a copy of `all_sentences` sorted by
`(b.score ?? 0) - (a.score ?? 0)`, i.e. descending by score.
`Array.prototype.sort` is a stable sort; a sort that is both sorted for a
total preorder and stable is unique, and `List.insertionSort` with the
relation "left score is at least right score" is that stable descending
sort (each element is inserted before the first already-placed element it
relates to, so ties keep their original relative order). -/
def allSorted (a : AnalysisResult) : List ScoredSentence :=
  a.all_sentences.insertionSort (fun x y => scoreOr0 y ≤ scoreOr0 x)

/-- Embedding of `filtered`: keep the sentences whose score (absent read
as 0) is at least `clamp(Number(minRisk) || 0, 0, 999)`. -/
def filtered (a : AnalysisResult) (minRisk : Int) : List ScoredSentence :=
  (allSorted a).filter
    (fun x => decide (clamp (jsOrDefault minRisk 0) 0 999 ≤ scoreOr0 x))

/-- Embedding of `topShown`: the first `clamp(Number(topN) || 10, 1, 200)`
entries of `filtered`.  Note the `|| 10`: a `topN` of 0 is falsy in
JavaScript and is replaced by the default 10 before clamping. -/
def topShown (a : AnalysisResult) (minRisk topN : Int) : List ScoredSentence :=
  (filtered a minRisk).take (clamp (jsOrDefault topN 10) 1 200).toNat

/-- One value of the `rewriteBySentence` map:
`{ loading, error, output }`. -/
structure RewriteEntry where
  loading : Bool
  error : String
  output : String
deriving DecidableEq, Repr

/-- The rewrite cache, keyed by the literal sentence text.  A key that was
never requested maps to `none` (reads as the `Idle` state). -/
abbrev Cache : Type := String → Option RewriteEntry

/-- The initial cache `{}` and the cache after `setRewriteBySentence({})`. -/
def emptyCache : Cache := fun _ => none

/-- The four externally visible shapes of a rewrite entry. -/
inductive EntryView where
  | Idle : EntryView
  | Loading : EntryView
  | Failed : String → EntryView
  | Success : String → EntryView
deriving DecidableEq, Repr

/-- How `SentenceCard` reads an entry: the `loading` flag wins, then a
non-empty `error`, then a non-empty `output`; an absent entry (and one
with all fields falsy) renders as `Idle`. -/
def viewOf : Option RewriteEntry → EntryView
  | none => EntryView.Idle
  | some e =>
    if e.loading then EntryView.Loading
    else if e.error ≠ "" then EntryView.Failed e.error
    else if e.output ≠ "" then EntryView.Success e.output
    else EntryView.Idle

/-- Read-only lookup of a sentence's rewrite state. -/
def getEntry (c : Cache) (k : String) : EntryView := viewOf (c k)

/-- The guard at the top of `rewriteSentence`:
`if (existing?.output && !existing?.error) return;` — the call returns
early exactly when the entry exists with a non-empty `output` and an
empty `error`. -/
def cacheHit (c : Cache) (k : String) : Bool :=
  match c k with
  | some e => e.output != "" && e.error == ""
  | none => false

/-- The entry written when entering the loading state:
`{ loading: true, error: "", output: prev?.[key]?.output || "" }`. -/
def loadingEntry (c : Cache) (k : String) : RewriteEntry :=
  { loading := true, error := "",
    output := match c k with
              | some e => e.output
              | none => "" }

/-- The synchronous prefix of `rewriteSentence(sentence)`: either the
cache-hit early return (no state change, no network call) or the
transition to loading followed by issuing the `/rewrite` call.  The
returned `Bool` records whether a network call was issued. -/
def requestRewriteStep (c : Cache) (k : String) : Cache × Bool :=
  if cacheHit c k then (c, false)
  else (fun q => if q = k then some (loadingEntry c k) else c q, true)

/-- A well-formed `/rewrite` 2xx response body: each of the three
candidate fields may be absent. -/
structure RewriteResponse where
  rewrite : Option String
  rewritten : Option String
  text : Option String
deriving DecidableEq, Repr

/-- Embedding of the JavaScript truthiness default `x || d` on a
possibly-absent string field: absent or empty falls back to `d`. -/
def jsOrStr (x : Option String) (d : String) : String :=
  match x with
  | some s => if s = "" then d else s
  | none => d

/-- Embedding of `data?.rewrite || data?.rewritten || data?.text || ""`. -/
def extractOut (d : RewriteResponse) : String :=
  jsOrStr d.rewrite (jsOrStr d.rewritten (jsOrStr d.text ""))

/-- Embedding of `out || "(empty rewrite)"`: the output stored on a
successful rewrite. -/
def successOut (d : RewriteResponse) : String :=
  if extractOut d = "" then "(empty rewrite)" else extractOut d

/-- The completion of a successful `/rewrite` call for key `k`:
`setRewriteBySentence((prev) => ({ ...prev, [key]: { loading: false,
error: "", output: out || "(empty rewrite)" } }))`, a read-modify-write
over the previous cache. -/
def requestSuccess (c : Cache) (k : String) (d : RewriteResponse) : Cache :=
  fun q =>
    if q = k then some { loading := false, error := "", output := successOut d }
    else c q

/-- A failed `/rewrite` call: either a non-2xx response (with its optional
body text) or a network error carrying the exception message. -/
inductive RewriteFailure where
  | httpErr : Nat → String → RewriteFailure
  | netErr : String → RewriteFailure
deriving DecidableEq, Repr

/-- The message stored on a failed rewrite.  A non-2xx response throws
`Rewrite failed (status). body` and the catch stores
`e?.message || "Rewrite failed."`; a network error stores the exception
message or the same generic fallback when that message is empty. -/
def rewriteFailMsg : RewriteFailure → String
  | RewriteFailure.httpErr st body => "Rewrite failed (" ++ Nat.repr st ++ "). " ++ body
  | RewriteFailure.netErr m => if m = "" then "Rewrite failed." else m

/-- The completion of a failed `/rewrite` call for key `k`:
`{ loading: false, error: e?.message || "Rewrite failed.", output: "" }`,
a read-modify-write over the previous cache. -/
def requestFail (c : Cache) (k : String) (f : RewriteFailure) : Cache :=
  fun q =>
    if q = k then some { loading := false, error := rewriteFailMsg f, output := "" }
    else c q

/-- The session state of the current `App` (`src/unnamed/part_000`):
selected file, status pill, session-level error, stored analysis, filter
state, the `loading` flag, and the rewrite cache. -/
structure AppState where
  file : Option String
  statusPill : String
  error : String
  analysis : Option AnalysisResult
  minRisk : Int
  topN : Int
  loading : Bool
  rewriteBySentence : Cache

/-- The outcome of one attempted `/analyze` network round trip: a 2xx
response with a parsed body, a non-2xx response with its status and body
text, or a network error with the exception message. -/
inductive FetchOutcome where
  | httpOk : AnalysisResult → FetchOutcome
  | httpErr : Nat → String → FetchOutcome
  | netErr : String → FetchOutcome

/-- Embedding of `analyzePdf()` from `src/unnamed/part_000`, run to
completion with the given network outcome.  With no file selected it sets
the error banner and returns without a network call (and without touching
the status pill).  Otherwise: on 2xx it stores the result, sets the pill
to Done, resets the filters to `minRisk=1, topN=10` and clears the
rewrite cache; on a non-2xx it throws `Analyze failed (status). body`,
caught as the error banner with the pill set to Error; on a network error
the banner is the exception message or the generic `Analyze failed.`
fallback.  The stored analysis is only written on the 2xx path.  The
returned `Bool` records whether a network call was issued. -/
def analyzePdf (s : AppState) (o : FetchOutcome) : AppState × Bool :=
  match s.file with
  | none => ({ s with error := "Choose a PDF first." }, false)
  | some _ =>
    match o with
    | FetchOutcome.httpOk data =>
        ({ s with error := "", statusPill := "Done", analysis := some data,
                  minRisk := 1, topN := 10, rewriteBySentence := emptyCache,
                  loading := false }, true)
    | FetchOutcome.httpErr st body =>
        ({ s with error := "Analyze failed (" ++ Nat.repr st ++ "). " ++ body,
                  statusPill := "Error", loading := false }, true)
    | FetchOutcome.netErr m =>
        ({ s with error := if m = "" then "Analyze failed." else m,
                  statusPill := "Error", loading := false }, true)

/-- The session state of the older variant (`src/frontend/src/App.js`). -/
structure AppJsState where
  file : Option String
  status : String
  error : String
  result : Option AnalysisResult

/-- Embedding of `analyze()` from `src/frontend/src/App.js`, run to
completion with the given network outcome.  With no file it returns
silently.  Otherwise it first sets `status="analyzing"`, clears the error
and clears the previous result (`setResult(null)`); then on 2xx stores
the new result with status done, on a non-2xx stores
`Backend error (status): body`, and on a network error stores the generic
could-not-reach-backend message. -/
def analyze (s : AppJsState) (o : FetchOutcome) : AppJsState × Bool :=
  match s.file with
  | none => (s, false)
  | some _ =>
    match o with
    | FetchOutcome.httpOk data =>
        ({ s with status := "done", error := "", result := some data }, true)
    | FetchOutcome.httpErr st body =>
        ({ s with status := "error",
                  error := "Backend error (" ++ Nat.repr st ++ "): " ++ body,
                  result := none }, true)
    | FetchOutcome.netErr _ =>
        ({ s with status := "error",
                  error := "Could not reach backend. Is uvicorn running on :8000?",
                  result := none }, true)

/-- A successful `/rewrite` completion lifted to the whole app state: the
only `set*` call in that branch is `setRewriteBySentence`. -/
def rewriteResolveOk (s : AppState) (k : String) (d : RewriteResponse) : AppState :=
  { s with rewriteBySentence := requestSuccess s.rewriteBySentence k d }

/-- A failed `/rewrite` completion lifted to the whole app state: the only
`set*` call in that branch is `setRewriteBySentence`. -/
def rewriteResolveErr (s : AppState) (k : String) (f : RewriteFailure) : AppState :=
  { s with rewriteBySentence := requestFail s.rewriteBySentence k f }

/-- Substring containment, used to state that an error message includes
the HTTP status or the response body. -/
def containsStr (s sub : String) : Prop := ∃ p q, s = p ++ sub ++ q

/-- One atomic update of the rewrite cache: the synchronous start of a
rewrite request, the completion of a successful or failed call (which may
resolve at any later time, for any key), or the wholesale clear performed
by a successful analyze. -/
inductive CacheStep : Cache → Cache → Prop where
  | start (c : Cache) (k : String) : CacheStep c (requestRewriteStep c k).1
  | ok (c : Cache) (k : String) (d : RewriteResponse) : CacheStep c (requestSuccess c k d)
  | fail (c : Cache) (k : String) (f : RewriteFailure) : CacheStep c (requestFail c k f)
  | clear (c : Cache) : CacheStep c emptyCache

/-- A cache state reachable from the initial empty cache through the
update operations of the program. -/
def CacheReachable (c : Cache) : Prop :=
  Relation.ReflTransGen CacheStep emptyCache c

/-- Well-formedness of one present cache entry: it is in exactly one of
the Loading / Error / Success shapes (absent entries are Idle). -/
def EntryWF (e : RewriteEntry) : Prop :=
  (e.loading = true ∧ e.error = "" ∧ e.output = "") ∨
  (e.loading = false ∧ e.error ≠ "" ∧ e.output = "") ∨
  (e.loading = false ∧ e.error = "" ∧ e.output ≠ "")

/-- Well-formedness of a cache: every present entry is well-formed. -/
def CacheWF (c : Cache) : Prop := ∀ k e, c k = some e → EntryWF e

/-- Spec-side reading of the claim wording for the rewrite extraction:
the first PRESENT field in the order `rewrite`, `rewritten`, `text`,
present or not non-empty. -/
def firstPresentField (d : RewriteResponse) : Option String :=
  (d.rewrite.orElse (fun _ => d.rewritten)).orElse (fun _ => d.text)

/-- Spec-side definition for the amended extraction claim: the first
field that is present AND non-empty, in the order `rewrite`,
`rewritten`, `text`. -/
def firstNonEmptyField (d : RewriteResponse) : Option String :=
  (([d.rewrite, d.rewritten, d.text].filterMap id).filter (fun s => s != "")).head?

/-- A concrete analysis result used by the concrete-input theorems: the
spec example `all_sentences = [{"A",2},{"B",9},{"C",5}]`. -/
def sampleAnalysis : AnalysisResult :=
  { grade_level := some 8, reading_time_minutes := some 3,
    total_sentences := some 3, average_risk_score := some 5,
    all_sentences := [⟨"A", some 2⟩, ⟨"B", some 9⟩, ⟨"C", some 5⟩],
    top_risk_sentences := [] }

/-- A cache holding one cached successful rewrite for key "B", obtained by
resolving the spec example response `{"rewrite":"Simpler B."}`. -/
def cachedBCache : Cache :=
  requestSuccess emptyCache "B" ⟨some "Simpler B.", none, none⟩

/-- A session state with no file selected and an Idle status pill. -/
def idleNoFile : AppState :=
  { file := none, statusPill := "Idle", error := "", analysis := none,
    minRisk := 1, topN := 10, loading := false, rewriteBySentence := emptyCache }

/-- A session state with a selected file and an empty rewrite cache. -/
def initState : AppState :=
  { file := some "doc.pdf", statusPill := "Ready", error := "", analysis := none,
    minRisk := 1, topN := 10, loading := false, rewriteBySentence := emptyCache }

/-- A session state after a successful analysis, with adjusted filters and
one populated rewrite-cache entry. -/
def popState : AppState :=
  { file := some "doc.pdf", statusPill := "Done", error := "",
    analysis := some sampleAnalysis, minRisk := 4, topN := 50, loading := false,
    rewriteBySentence := cachedBCache }

/-- An old-variant session state holding a previous successful result. -/
def doneJsState : AppJsState :=
  { file := some "doc.pdf", status := "done", error := "", result := some sampleAnalysis }

/-- A rewrite response whose first field is present but empty:
`{"rewrite": "", "rewritten": "B"}`. -/
def mixedResp : RewriteResponse := { rewrite := some "", rewritten := some "B", text := none }

theorem append_ne_empty_left (a b : String) (h : a ≠ "") : a ++ b ≠ "" := by
  intro he
  apply h
  have hl := congrArg String.length he
  rw [String.length_append] at hl
  have h0 : ("" : String).length = 0 := rfl
  rw [h0] at hl
  have ha : a.length = 0 := by omega
  cases a with
  | mk data =>
    cases data with
    | nil => rfl
    | cons x l => simp [String.length] at ha

theorem rewriteFailMsg_ne_empty (f : RewriteFailure) : rewriteFailMsg f ≠ "" := by
  cases f with
  | httpErr st body =>
    have h1 : ("Rewrite failed (" ++ Nat.repr st : String) ≠ "" :=
      append_ne_empty_left "Rewrite failed (" (Nat.repr st) (by decide)
    have h2 : ("Rewrite failed (" ++ Nat.repr st ++ "). " : String) ≠ "" :=
      append_ne_empty_left ("Rewrite failed (" ++ Nat.repr st) "). " h1
    exact append_ne_empty_left ("Rewrite failed (" ++ Nat.repr st ++ "). ") body h2
  | netErr m =>
    by_cases hm : m = "" <;> simp [rewriteFailMsg, hm]

theorem successOut_ne_empty (d : RewriteResponse) : successOut d ≠ "" := by
  unfold successOut
  by_cases h : extractOut d = "" <;> simp [h]

theorem jsOrDefault_zero (m : Int) : jsOrDefault m 0 = m := by
  unfold jsOrDefault
  by_cases h : m = 0 <;> simp [h]

theorem allSorted_sorted (a : AnalysisResult) :
    (allSorted a).Pairwise (fun x y => scoreOr0 y ≤ scoreOr0 x) := by
  haveI : IsTotal ScoredSentence (fun x y => scoreOr0 y ≤ scoreOr0 x) :=
    ⟨fun x y => le_total _ _⟩
  haveI : IsTrans ScoredSentence (fun x y => scoreOr0 y ≤ scoreOr0 x) :=
    ⟨fun x y z h1 h2 => le_trans h2 h1⟩
  exact List.sorted_insertionSort _ _

/-- C2 counterexample: with the spec example sentences and `minRisk=0`,
the view at `topN=0` (which the code defaults to 10 before clamping,
showing all 3 sentences) differs from the view at `topN=1` (1 sentence),
refuting "requesting `topN=0` yields the same view as `topN=1`". -/
theorem c2_topn_zero_counterexample :
    topShown sampleAnalysis 0 0 ≠ topShown sampleAnalysis 0 1 := by decide

/-- C2 amended: `topN` is passed through `Number(topN) || 10` before being
clamped to `[1,200]`, so `topN=500` yields the same view as `topN=200`,
but `topN=0` is falsy and yields the same view as the default `topN=10`,
not as `topN=1`. -/
theorem c2_topn_clamp_defaulting (a : AnalysisResult) (minRisk : Int) :
    topShown a minRisk 500 = topShown a minRisk 200 ∧
    topShown a minRisk 0 = topShown a minRisk 10 := by
  constructor <;> rfl

/-- C4 counterexample: at `topN=0` the truncation bound is the default 10,
not `clamp(0,1,200) = 1`; with the 3 spec sentences and `minRisk=0` the
derived view has 3 elements, exceeding the claimed bound of 1. -/
theorem c4_length_bound_counterexample :
    ¬ ((topShown sampleAnalysis 0 0).length ≤ (clamp 0 1 200).toNat) := by decide

/-- C4 amended: the derived view is a subsequence of the stable
descending-by-score sort of `all_sentences` (absent score read as 0),
every element has score at least `clamp(minRisk,0,999)`, and its length is
at most `clamp(Number(topN) || 10, 1, 200)` — the clamp applies to `topN`
after the falsy default, so a `topN` of 0 gives the bound 10, not 1.  The
sort is a permutation of `all_sentences` and the derivation never mutates
it (all derivations are pure functions of the analysis and filter
state). -/
theorem c4_derived_view_amended (a : AnalysisResult) (minRisk topN : Int) :
    (topShown a minRisk topN).Sublist (allSorted a) ∧
    (∀ x ∈ topShown a minRisk topN, clamp minRisk 0 999 ≤ scoreOr0 x) ∧
    (topShown a minRisk topN).length ≤ (clamp (jsOrDefault topN 10) 1 200).toNat ∧
    (allSorted a).Perm a.all_sentences ∧
    (allSorted a).Pairwise (fun x y => scoreOr0 y ≤ scoreOr0 x) := by
  refine ⟨?_, ?_, ?_, ?_, allSorted_sorted a⟩
  · exact (List.take_sublist _ _).trans (List.filter_sublist _)
  · intro x hx
    have hx2 : x ∈ filtered a minRisk := List.mem_of_mem_take hx
    have hb := List.of_mem_filter hx2
    have h2 := of_decide_eq_true hb
    rwa [jsOrDefault_zero] at h2
  · exact List.length_take_le _ _
  · exact List.perm_insertionSort _ _

/-- C1 counterexample: starting from the empty cache, a first
`requestRewrite("A")` leaves the entry Loading, and a second
`requestRewrite("A")` issued while that entry is still Loading issues a
second network call (`true`), refuting "the second call issues no network
request". -/
theorem c1_dedup_counterexample :
    getEntry (requestRewriteStep emptyCache "A").1 "A" = EntryView.Loading ∧
    (requestRewriteStep (requestRewriteStep emptyCache "A").1 "A").2 = true := by decide

/-- C1 amended: the guard of `rewriteSentence` suppresses a call only when
the entry has a non-empty cached `output` and no `error`; an entry in the
Loading state (whose `output` is empty) does not suppress a second call
for the same key, which issues another network request and rewrites the
entry to Loading, so two `/rewrite` calls can be in flight for one key.
(In the UI the per-sentence button is disabled while loading, but the
coordinator itself does not deduplicate.) -/
theorem c1_loading_refires (c : Cache) (k : String) (e : RewriteEntry)
    (hk : c k = some e) (_hl : e.loading = true) (ho : e.output = "") :
    (requestRewriteStep c k).2 = true ∧
    (requestRewriteStep c k).1 k = some { loading := true, error := "", output := "" } := by
  have hmiss : cacheHit c k = false := by
    simp [cacheHit, hk, ho]
  constructor
  · simp [requestRewriteStep, hmiss]
  · simp [requestRewriteStep, hmiss, loadingEntry, hk, ho]

/-- Witness for the amended C1 at a concrete input: after one request for
"A" the entry is Loading and a second request fires a second call. -/
theorem c1_loading_refires_witness :
    (requestRewriteStep (requestRewriteStep emptyCache "A").1 "A").2 = true ∧
    (requestRewriteStep (requestRewriteStep emptyCache "A").1 "A").1 "A" =
      some { loading := true, error := "", output := "" } :=
  c1_loading_refires (requestRewriteStep emptyCache "A").1 "A"
    { loading := true, error := "", output := "" } (by decide) rfl rfl

/-- C5: a key whose entry is Success with a non-empty output (empty error,
not loading) makes a further `requestRewrite` return before any state
change or network call: the whole cache is unchanged and no call is
issued. -/
theorem c5_success_cached (c : Cache) (k : String) (e : RewriteEntry)
    (hk : c k = some e) (hl : e.loading = false) (he : e.error = "") (ho : e.output ≠ "") :
    requestRewriteStep c k = (c, false) ∧ getEntry c k = EntryView.Success e.output := by
  have hhit : cacheHit c k = true := by
    simp [cacheHit, hk, he, ho]
  constructor
  · simp [requestRewriteStep, hhit]
  · simp [getEntry, viewOf, hk, hl, he, ho]

/-- Witness for C5 at a concrete input: the cache holding the resolved
spec example rewrite for "B" is left untouched by a repeated request. -/
theorem c5_success_cached_witness :
    requestRewriteStep cachedBCache "B" = (cachedBCache, false) ∧
    getEntry cachedBCache "B" = EntryView.Success "Simpler B." :=
  c5_success_cached cachedBCache "B"
    { loading := false, error := "", output := "Simpler B." } (by decide) rfl rfl (by decide)

/-- C6 counterexample: for the response `{"rewrite": "", "rewritten":
"B"}` the first PRESENT field in the fixed order is `rewrite` with value
`""`, so the claim predicts an extraction of `""` and a stored output of
`"(empty rewrite)"`; the code instead skips the empty field (JavaScript
`||` treats `""` as falsy), extracts `"B"` and stores `Success "B"`. -/
theorem c6_present_field_counterexample :
    firstPresentField mixedResp = some "" ∧
    extractOut mixedResp = "B" ∧
    requestSuccess emptyCache "A" mixedResp "A" =
      some { loading := false, error := "", output := "B" } := by decide

/-- C6 amended: the extracted rewrite output is the first present AND
non-empty field in the fixed order `rewrite`, `rewritten`, `text` (absent
and empty fields both fall through); if no such field exists the
extraction is empty and the stored Success output is the literal
placeholder "(empty rewrite)". -/
theorem c6_extraction_amended (d : RewriteResponse) (c : Cache) (k : String) :
    extractOut d = (firstNonEmptyField d).getD "" ∧
    requestSuccess c k d k =
      some { loading := false, error := "",
             output := if extractOut d = "" then "(empty rewrite)" else extractOut d } := by
  constructor
  · obtain ⟨r, w, t⟩ := d
    cases r <;> cases w <;> cases t <;>
      simp [extractOut, firstNonEmptyField, jsOrStr, List.filter_cons, bne_iff_ne] <;>
      split_ifs <;> simp_all
  · simp [requestSuccess, successOut]

/-- C9: resolving a `/rewrite` call (success or failure) for key `k`
rewrites only the cache entry for `k`: every other key, the session error,
the status pill and the stored analysis are unchanged; and because the
update is a read-modify-write over the previous cache, two completions
for different keys both take effect. -/
theorem c9_completion_frame (s : AppState) (k q : String) (hq : q ≠ k)
    (d dq : RewriteResponse) (f : RewriteFailure) :
    (rewriteResolveOk s k d).rewriteBySentence q = s.rewriteBySentence q ∧
    (rewriteResolveOk s k d).error = s.error ∧
    (rewriteResolveOk s k d).statusPill = s.statusPill ∧
    (rewriteResolveOk s k d).analysis = s.analysis ∧
    (rewriteResolveOk s k d).rewriteBySentence k =
      some { loading := false, error := "", output := successOut d } ∧
    (rewriteResolveErr s k f).rewriteBySentence q = s.rewriteBySentence q ∧
    (rewriteResolveErr s k f).error = s.error ∧
    (rewriteResolveErr s k f).statusPill = s.statusPill ∧
    (rewriteResolveErr s k f).analysis = s.analysis ∧
    (rewriteResolveErr s k f).rewriteBySentence k =
      some { loading := false, error := rewriteFailMsg f, output := "" } ∧
    (rewriteResolveOk (rewriteResolveOk s q dq) k d).rewriteBySentence q =
      some { loading := false, error := "", output := successOut dq } ∧
    (rewriteResolveOk (rewriteResolveOk s q dq) k d).rewriteBySentence k =
      some { loading := false, error := "", output := successOut d } := by
  have hq2 : k ≠ q := Ne.symm hq
  simp [rewriteResolveOk, rewriteResolveErr, requestSuccess, requestFail, hq, hq2]

/-- Witness for C9 at a concrete input: resolving "A" leaves the session
error unchanged. -/
theorem c9_completion_frame_witness :
    ("B" : String) ≠ "A" ∧
    (rewriteResolveOk initState "A" ⟨some "x", none, none⟩).error = initState.error :=
  ⟨by decide,
   (c9_completion_frame initState "A" "B" (by decide) ⟨some "x", none, none⟩
     ⟨some "y", none, none⟩ (RewriteFailure.netErr "")).2.1⟩

theorem cacheWF_empty : CacheWF emptyCache := by
  intro k e h
  simp [emptyCache] at h

theorem cacheWF_step {c c2 : Cache} (h : CacheStep c c2) (hwf : CacheWF c) : CacheWF c2 := by
  cases h with
  | start k =>
    intro q e hq
    unfold requestRewriteStep at hq
    by_cases hhit : cacheHit c k = true
    · rw [if_pos hhit] at hq
      exact hwf q e hq
    · rw [if_neg hhit] at hq
      by_cases hqk : q = k
      · subst hqk
        simp at hq
        subst hq
        left
        refine ⟨rfl, rfl, ?_⟩
        unfold loadingEntry
        cases hck : c q with
        | none => simp
        | some e0 =>
          simp only
          have hwf0 := hwf q e0 hck
          unfold cacheHit at hhit
          rw [hck] at hhit
          simp only [Bool.and_eq_true, bne_iff_ne, beq_iff_eq, not_and, ne_eq,
            Decidable.not_not] at hhit
          by_cases hout : e0.output = ""
          · exact hout
          · exfalso
            have herr := hhit (fun hcon => hout hcon)
            rcases hwf0 with ⟨_, h2, _⟩ | ⟨_, h2, h3⟩ | ⟨_, h2, _⟩
            · exact absurd herr (by simp [h2])
            · exact hout h3
            · exact absurd herr (by simp [h2])
      · simp [hqk] at hq
        exact hwf q e hq
  | ok k d =>
    intro q e hq
    unfold requestSuccess at hq
    by_cases hqk : q = k
    · subst hqk
      simp at hq
      subst hq
      right; right
      exact ⟨rfl, rfl, successOut_ne_empty d⟩
    · simp [hqk] at hq
      exact hwf q e hq
  | fail k f =>
    intro q e hq
    unfold requestFail at hq
    by_cases hqk : q = k
    · subst hqk
      simp at hq
      subst hq
      right; left
      exact ⟨rfl, rewriteFailMsg_ne_empty f, rfl⟩
    · simp [hqk] at hq
      exact hwf q e hq
  | clear =>
    exact cacheWF_empty

/-- C10: in every cache state reachable from the empty cache through the
update operations of the coordinator (request start, successful or failed
completion, wholesale clear), every present entry is in exactly one of
the Loading / Error / Success shapes — in particular the error message
and the output are never both non-empty: successes store a non-empty
output with an empty error, failures a non-empty error with an empty
output, and entering Loading clears the error (absent entries are
Idle). -/
theorem c10_entry_shapes (c : Cache) (h : CacheReachable c) : CacheWF c := by
  induction h with
  | refl => exact cacheWF_empty
  | tail hsteps hstep ih => exact cacheWF_step hstep ih

/-- Witness for C10 at a concrete reachable cache: the entry created by a
first request for "A" is well-formed. -/
theorem c10_entry_shapes_witness :
    EntryWF { loading := true, error := "", output := "" } :=
  c10_entry_shapes (requestRewriteStep emptyCache "A").1
    (Relation.ReflTransGen.single (CacheStep.start emptyCache "A")) "A"
    { loading := true, error := "", output := "" } (by decide)

/-- C7: a successful submit stores the new analysis and, in the same
transition, resets the filters to `minRisk=1, topN=10` and clears the
whole rewrite cache, so `getEntry` afterwards returns Idle for every
key. -/
theorem c7_success_resets (s : AppState) (fl : String) (hf : s.file = some fl)
    (data : AnalysisResult) :
    (analyzePdf s (FetchOutcome.httpOk data)).1.analysis = some data ∧
    (analyzePdf s (FetchOutcome.httpOk data)).1.minRisk = 1 ∧
    (analyzePdf s (FetchOutcome.httpOk data)).1.topN = 10 ∧
    (analyzePdf s (FetchOutcome.httpOk data)).1.statusPill = "Done" ∧
    (∀ k, getEntry (analyzePdf s (FetchOutcome.httpOk data)).1.rewriteBySentence k =
      EntryView.Idle) := by
  simp [analyzePdf, hf, getEntry, emptyCache, viewOf]

/-- Witness for C7 at a concrete input: a state whose cache holds a
resolved rewrite for "B" has that entry gone (Idle) after a successful
submit. -/
theorem c7_success_resets_witness :
    popState.file = some "doc.pdf" ∧
    getEntry popState.rewriteBySentence "B" = EntryView.Success "Simpler B." ∧
    getEntry (analyzePdf popState (FetchOutcome.httpOk sampleAnalysis)).1.rewriteBySentence "B" =
      EntryView.Idle :=
  ⟨rfl, by decide, (c7_success_resets popState "doc.pdf" rfl sampleAnalysis).2.2.2.2 "B"⟩

/-- C8 counterexample: submit with no file selected makes no network call
and sets the error banner, but the status pill is left at "Idle" — it is
NOT set to "Error", refuting that part of the claim. -/
theorem c8_status_counterexample :
    (analyzePdf idleNoFile (FetchOutcome.netErr "")).2 = false ∧
    (analyzePdf idleNoFile (FetchOutcome.netErr "")).1.error = "Choose a PDF first." ∧
    (analyzePdf idleNoFile (FetchOutcome.netErr "")).1.statusPill = "Idle" ∧
    (analyzePdf idleNoFile (FetchOutcome.netErr "")).1.statusPill ≠ "Error" := by
  constructor
  · rfl
  · constructor
    · rfl
    · constructor
      · rfl
      · decide

/-- C8 amended: with no file selected, submit makes no network call,
surfaces the failure as the session-level error banner "Choose a PDF
first." and returns normally (nothing is thrown), leaving every other
part of the state — including the status, which is NOT set to Error —
unchanged. -/
theorem c8_nofile_fails_fast (s : AppState) (h : s.file = none) (o : FetchOutcome) :
    analyzePdf s o = ({ s with error := "Choose a PDF first." }, false) := by
  obtain ⟨fl, sp, er, an, mr, tn, ld, rbs⟩ := s
  simp only at h
  subst h
  rfl

/-- Witness for the amended C8 at a concrete input. -/
theorem c8_nofile_fails_fast_witness :
    analyzePdf idleNoFile (FetchOutcome.netErr "") =
      ({ idleNoFile with error := "Choose a PDF first." }, false) :=
  c8_nofile_fails_fast idleNoFile rfl (FetchOutcome.netErr "")

/-- C3 counterexample: in the older variant (`src/frontend/src/App.js`,
cited by the claim), `analyze` clears the previous result at the start of
submit (`setResult(null)`), so when `/analyze` fails with HTTP 500 "bad
pdf" the prior session's result has been destroyed — `result` is `none`
afterwards even though the run started with a stored result — refuting
"the previous session's AnalysisResult is left unchanged". -/
theorem c3_prior_result_counterexample :
    doneJsState.result = some sampleAnalysis ∧
    (analyze doneJsState (FetchOutcome.httpErr 500 "bad pdf")).1.status = "error" ∧
    (analyze doneJsState (FetchOutcome.httpErr 500 "bad pdf")).1.result = none := by decide

/-- C3 amended: a failed submit sets the status to Error and retains an
error message that includes the HTTP status and response body when
available.  In the current file (`analyzePdf`) the prior AnalysisResult
is left unchanged and a network error retains the exception message (or
the generic "Analyze failed." fallback when that message is empty), not a
could-not-reach-backend message; in the older variant (`analyze`) a
network error retains the generic could-not-reach-backend message, but
the prior result has already been cleared at the start of submit, so
after any failure the stored result is `none`. -/
theorem c3_failure_paths (s : AppState) (fl : String) (hf : s.file = some fl)
    (t : AppJsState) (g : String) (ht : t.file = some g)
    (st : Nat) (body m : String) :
    ((analyzePdf s (FetchOutcome.httpErr st body)).1.statusPill = "Error" ∧
     containsStr (analyzePdf s (FetchOutcome.httpErr st body)).1.error (Nat.repr st) ∧
     containsStr (analyzePdf s (FetchOutcome.httpErr st body)).1.error body ∧
     (analyzePdf s (FetchOutcome.httpErr st body)).1.analysis = s.analysis) ∧
    ((analyzePdf s (FetchOutcome.netErr m)).1.statusPill = "Error" ∧
     (analyzePdf s (FetchOutcome.netErr m)).1.error =
       (if m = "" then "Analyze failed." else m) ∧
     (analyzePdf s (FetchOutcome.netErr m)).1.analysis = s.analysis) ∧
    ((analyze t (FetchOutcome.httpErr st body)).1.status = "error" ∧
     containsStr (analyze t (FetchOutcome.httpErr st body)).1.error (Nat.repr st) ∧
     containsStr (analyze t (FetchOutcome.httpErr st body)).1.error body ∧
     (analyze t (FetchOutcome.httpErr st body)).1.result = none) ∧
    ((analyze t (FetchOutcome.netErr m)).1.status = "error" ∧
     (analyze t (FetchOutcome.netErr m)).1.error =
       "Could not reach backend. Is uvicorn running on :8000?" ∧
     (analyze t (FetchOutcome.netErr m)).1.result = none) := by
  refine ⟨⟨?_, ?_, ?_, ?_⟩, ⟨?_, ?_, ?_⟩, ⟨?_, ?_, ?_, ?_⟩, ⟨?_, ?_, ?_⟩⟩
  · simp [analyzePdf, hf]
  · simp only [analyzePdf, hf]
    exact ⟨"Analyze failed (", "). " ++ body, by rw [String.append_assoc]⟩
  · simp only [analyzePdf, hf]
    exact ⟨"Analyze failed (" ++ Nat.repr st ++ "). ", "", by rw [String.append_empty]⟩
  · simp [analyzePdf, hf]
  · simp [analyzePdf, hf]
  · simp [analyzePdf, hf]
  · simp [analyzePdf, hf]
  · simp [analyze, ht]
  · simp only [analyze, ht]
    exact ⟨"Backend error (", "): " ++ body, by rw [String.append_assoc]⟩
  · simp only [analyze, ht]
    exact ⟨"Backend error (" ++ Nat.repr st ++ "): ", "", by rw [String.append_empty]⟩
  · simp [analyze, ht]
  · simp [analyze, ht]
  · simp [analyze, ht]
  · simp [analyze, ht]

/-- Witness for the amended C3 at concrete inputs: the spec scenario
HTTP 500 with body "bad pdf" leaves the prior analysis of `popState`
unchanged in the current file. -/
theorem c3_failure_paths_witness :
    popState.file = some "doc.pdf" ∧
    (analyzePdf popState (FetchOutcome.httpErr 500 "bad pdf")).1.analysis = popState.analysis :=
  ⟨rfl,
   (c3_failure_paths popState "doc.pdf" rfl doneJsState "doc.pdf" rfl 500 "bad pdf" "").1.2.2.2⟩

end ReadRight
